import Mathlib

/-!
Shallow embedding of the snapshot/restore orchestration client
(`agentic_sandbox/extensions/podsnapshot.py`, class `PodSnapshotSandboxClient`)
together with the constants of `agentic_sandbox/constants.py`.

Python dictionaries read with chained `.get` calls are modelled as structures of
`Option`-valued fields; Python string-or-None values are modelled by `PyVal`;
raised exceptions are modelled by `Except` with the error kinds the code
distinguishes (`ApiException`, `RuntimeError`, `TimeoutError`); every remote
interaction performed through the kubernetes client is recorded in a trace of
`RemoteCall` values so that claims about which remote calls happen are statable.
The remote API itself is an abstract `Gateway` of response functions.
-/

namespace PodSnapshot

/-- A Python value that is either a string or `None`. -/
inductive PyVal where
  | null
  | str (s : String)
deriving DecidableEq, Repr

/-- Python truthiness of a string-or-None value: `None` and `""` are falsy. -/
def PyVal.truthy : PyVal → Bool
  | .null => false
  | .str s => s ≠ ""

/-- Conversion of an optional string (result of `dict.get`) to a Python value. -/
def PyVal.ofOpt : Option String → PyVal
  | none => .null
  | some s => .str s

/-- Inverse of `PyVal.ofOpt`, used where a Python value is stored in a field
modelled as an optional string. -/
def PyVal.toOpt : PyVal → Option String
  | .null => none
  | .str s => some s

/-- Rendering used when a value is spliced into a message. -/
def PyVal.show : PyVal → String
  | .null => "None"
  | .str s => s

/-- An entry of a `status.conditions` list, with the three fields the code reads. -/
structure Condition where
  type : Option String
  status : Option String
  reason : Option String
deriving DecidableEq, Repr

/-- The `status.snapshotCreated` sub-dictionary of a trigger object. -/
structure SnapshotCreated where
  name : Option String
deriving DecidableEq, Repr

/-- The `status` dictionary of a custom object, restricted to the fields read. -/
structure KStatus where
  conditions : Option (List Condition)
  snapshotCreated : Option SnapshotCreated
deriving DecidableEq, Repr

/-- The `metadata` dictionary of a custom object, restricted to the fields used. -/
structure KMetadata where
  name : Option String
  ns : Option String
  uid : Option String
  creationTimestamp : Option String
  labels : Option (List (String × String))
deriving DecidableEq, Repr

/-- The `spec` dictionary of a custom object, restricted to the fields used. -/
structure KSpec where
  policyName : Option String
  targetPod : Option String
deriving DecidableEq, Repr

/-- A Kubernetes custom object as the code sees it: a dictionary whose
`metadata`, `spec` and `status` entries may each be absent. -/
structure KObj where
  metadata : Option KMetadata
  spec : Option KSpec
  status : Option KStatus
deriving DecidableEq, Repr

/-- Defaulted access `obj.get ("status", \x7b\x7d)`. -/
def KObj.statusD (o : KObj) : KStatus := o.status.getD ⟨none, none⟩

/-- Defaulted access `obj.get ("spec", \x7b\x7d)`. -/
def KObj.specD (o : KObj) : KSpec := o.spec.getD ⟨none, none⟩

/-- Defaulted access `obj.get ("metadata", \x7b\x7d)`. -/
def KObj.metadataD (o : KObj) : KMetadata := o.metadata.getD ⟨none, none, none, none, none⟩

/-- Defaulted access `status.get ("conditions", [])`. -/
def KStatus.conditionsD (s : KStatus) : List Condition := s.conditions.getD []

/-- Defaulted access `status.get ("snapshotCreated", \x7b\x7d)`. -/
def KStatus.snapshotCreatedD (s : KStatus) : SnapshotCreated := s.snapshotCreated.getD ⟨none⟩

/-- Defaulted access `metadata.get ("labels", \x7b\x7d)`. -/
def KMetadata.labelsD (m : KMetadata) : List (String × String) := m.labels.getD []

/-- Defaulted access `dict.get (key, default)` on a string-valued dictionary. -/
def lookupD (l : List (String × String)) (k d : String) : String := (l.lookup k).getD d

/-- A pod as returned by `list_namespaced_pod`: the name and phase attributes. -/
structure Pod where
  name : String
  phase : String
deriving DecidableEq, Repr

/-- An event yielded by the watch stream: `event["type"]` and `event["object"]`. -/
structure WatchEvent where
  type : String
  obj : KObj
deriving DecidableEq, Repr

/-- An `ApiException`: HTTP status and message. -/
structure ApiError where
  status : Nat
  msg : String
deriving DecidableEq, Repr

/-- The exception kinds the code raises or catches: `ApiException`,
`RuntimeError` and `TimeoutError`. -/
inductive PyErr where
  | api (e : ApiError)
  | runtime (msg : String)
  | timeout (msg : String)
deriving DecidableEq, Repr

/-- One remote interaction, as recorded in the call trace. -/
inductive RemoteCall where
  | create (ns plural : String) (name : PyVal)
  | get (ns plural : String) (name : PyVal)
  | list (ns plural : String)
  | delete (ns plural : String) (name : PyVal)
  | listPods (ns : String)
  | watch (ns plural : String) (name : String)
  | provision
  | superExit
deriving DecidableEq, Repr

/-- The abstract remote store: for every request shape, the response the remote
end would give.  Universally quantifying theorems over a `Gateway` quantifies
over every behaviour of the remote API. -/
structure Gateway where
  createObject : String → String → KObj → Except ApiError Unit
  getObject : String → String → PyVal → Except ApiError KObj
  listObjects : String → String → Except ApiError (List KObj)
  deleteObject : String → String → PyVal → Except ApiError Unit
  listPods : String → Except ApiError (List Pod)
  watchStream : String → String → String → Nat → List WatchEvent
  superInit : Except PyErr PyVal

/-- Constants from `constants.py`. -/
def PODSNAPSHOT_API_GROUP : String := "podsnapshot.gke.io"

def PODSNAPSHOT_API_VERSION : String := "v1alpha1"

def PODSNAPSHOT_PLURAL : String := "podsnapshotmanualtriggers"

def SNAPSHOT_NAMESPACE : String := "gps-system"

def SNAPSHOT_CONTROLLER_NAME : String := "gke-pod-snapshot-controller"

/-- Modelled from the spec: the plural for `PodSnapshotManualTrigger` objects is
referenced by `podsnapshot.py` but absent from `constants.py`; the manifest kind
and `PODSNAPSHOT_PLURAL` fix its value. -/
def PODSNAPSHOTMANUALTRIGGER_PLURAL : String := "podsnapshotmanualtriggers"

/-- Modelled from the spec: the self-installed topology namespace, referenced by
`podsnapshot.py` but absent from `constants.py`; the code comment names
`gps-system`, matching `SNAPSHOT_NAMESPACE`. -/
def SNAPSHOT_NAMESPACE_SELF_INSTALLED : String := "gps-system"

/-- Modelled from the spec: the managed topology namespace, referenced by
`podsnapshot.py` but absent from `constants.py`; the code comment names
`gke-managed-pod-snapshots`. -/
def SNAPSHOT_NAMESPACE_MANAGED : String := "gke-managed-pod-snapshots"

/-- Modelled from the spec: the agent component name, referenced by
`podsnapshot.py` but absent from `constants.py`.  Its exact value is never
relied on by a theorem. -/
def SNAPSHOT_AGENT : String := "gke-pod-snapshot-agent"

/-- The result type of command-style operations (`ExecutionResult`). -/
structure ExecutionResult where
  stdout : String
  stderr : String
  exit_code : Nat
deriving DecidableEq, Repr

/-- The mutable session fields of `PodSnapshotSandboxClient` that the embedded
operations read or write (`namespace` is spelled `ns`, a Lean keyword). -/
structure SessionState where
  controller_ready : Bool
  created_snapshots : List String
  pod_name : PyVal
  ns : String
  podsnapshot_timeout : Nat
  annotations : Option (List (String × PyVal))
deriving DecidableEq, Repr

/-- Substring containment on character lists: some suffix starts with `sub`. -/
def charsContain (sub : List Char) : List Char → Bool
  | [] => sub.isEmpty
  | c :: cs => sub.isPrefixOf (c :: cs) || charsContain sub cs

/-- Python substring containment (`component in name`). -/
def strContains (s sub : String) : Bool := charsContain sub.toList s.toList

/-- The inner `check_namespace` helper of `snapshot_controller_ready`: every
required component must have at least one pod in phase Running whose name
contains the component string; an `ApiException` yields `false`. -/
def check_namespace (gw : Gateway) (ns : String) (required_components : List String) :
    Bool × List RemoteCall :=
  match gw.listPods ns with
  | .error _ => (false, [.listPods ns])
  | .ok pods =>
    (required_components.all fun component =>
      pods.any fun p => p.phase == "Running" && strContains p.name component,
     [.listPods ns])

/-- Embedding of `snapshot_controller_ready`: sticky-true readiness probe over the two
candidate topologies; returns the answer, the updated session state and the
trace of remote calls made. -/
def snapshot_controller_ready (gw : Gateway) (st : SessionState) :
    Bool × SessionState × List RemoteCall :=
  if st.controller_ready then (true, st, [])
  else
    let c1 := check_namespace gw SNAPSHOT_NAMESPACE_SELF_INSTALLED
      [SNAPSHOT_CONTROLLER_NAME, SNAPSHOT_AGENT]
    if c1.1 then (true, { st with controller_ready := true }, c1.2)
    else
      let c2 := check_namespace gw SNAPSHOT_NAMESPACE_MANAGED [SNAPSHOT_AGENT]
      if c2.1 then (true, { st with controller_ready := true }, c1.2 ++ c2.2)
      else (false, { st with controller_ready := false }, c1.2 ++ c2.2)

/-- The manifest built by `checkpoint` for the trigger object. -/
def trigger_manifest (st : SessionState) (trigger_name : String) : KObj :=
  { metadata := some ⟨some trigger_name, some st.ns, none, none, none⟩,
    spec := some ⟨none, st.pod_name.toOpt⟩,
    status := none }

/-- The terminal condition scanned for by `_wait_for_snapshot_processed`. -/
def isTriggeredComplete (o : KObj) : Bool :=
  o.statusD.conditionsD.any fun c =>
    c.type == some "Triggered" && c.status == some "True" && c.reason == some "Complete"

/-- The per-event test of `_wait_for_snapshot_processed`: event type ADDED or
MODIFIED, and the object carries the Triggered/True/Complete condition. -/
def eventMatches (ev : WatchEvent) : Bool :=
  (ev.type == "ADDED" || ev.type == "MODIFIED") && isTriggeredComplete ev.obj

/-- Embedding of `_wait_for_snapshot_processed`: the watch stream is modelled as the finite
list of events observed within the timeout; the function succeeds on the first
matching event (stopping the watch) and otherwise raises `TimeoutError`.  With
the stream pure, the re-raise path for stream failures cannot fire, so the only
exception is the timeout. -/
def _wait_for_snapshot_processed (gw : Gateway) (st : SessionState)
    (trigger_name : String) : Except String Unit × List RemoteCall :=
  let events := gw.watchStream st.ns PODSNAPSHOTMANUALTRIGGER_PLURAL trigger_name
    st.podsnapshot_timeout
  if events.any eventMatches then
    (.ok (), [.watch st.ns PODSNAPSHOTMANUALTRIGGER_PLURAL trigger_name])
  else
    (.error ("Snapshot manual trigger " ++ trigger_name ++ " was not processed within "
        ++ toString st.podsnapshot_timeout ++ " seconds."),
     [.watch st.ns PODSNAPSHOTMANUALTRIGGER_PLURAL trigger_name])

/-- Embedding of `checkpoint`: precondition checks, trigger creation, tracking of the created
name, then the watch-wait; all failures are converted to an `ExecutionResult`
with exit code 1. -/
def checkpoint (gw : Gateway) (st : SessionState) (trigger_name : String) :
    ExecutionResult × SessionState × List RemoteCall :=
  if !st.controller_ready then
    (⟨"", "Snapshot controller is not ready. Ensure it is installed and running.", 1⟩,
     st, [])
  else if !st.pod_name.truthy then
    (⟨"", "Sandbox pod name not found. Ensure sandbox is created.", 1⟩, st, [])
  else
    let manifest := trigger_manifest st trigger_name
    let createCall := RemoteCall.create st.ns PODSNAPSHOTMANUALTRIGGER_PLURAL
      (.str trigger_name)
    match gw.createObject st.ns PODSNAPSHOTMANUALTRIGGER_PLURAL manifest with
    | .error e =>
      (⟨"", "Failed to create PodSnapshotManualTrigger: " ++ e.msg, 1⟩, st, [createCall])
    | .ok _ =>
      let st1 := { st with created_snapshots := st.created_snapshots ++ [trigger_name] }
      match _wait_for_snapshot_processed gw st1 trigger_name with
      | (.ok _, calls) =>
        (⟨"PodSnapshotManualTrigger " ++ trigger_name ++ " created successfully.", "", 0⟩,
         st1, createCall :: calls)
      | (.error m, calls) =>
        (⟨"", "Snapshot creation timed out: " ++ m, 1⟩, st1, createCall :: calls)

/-- The Ready/True condition test shared by `_check_snapshot_ready` and
`list_snapshots`. -/
def isReadyObj (o : KObj) : Bool :=
  o.statusD.conditionsD.any fun c =>
    c.type == some "Ready" && c.status == some "True"

/-- The dictionary appended to `valid_snapshots` for one listed object. -/
structure SnapshotSummary where
  snapshot_id : PyVal
  trigger_name : String
  source_pod : String
  uid : PyVal
  creationTimestamp : String
  status : String
  policy_name : PyVal
deriving DecidableEq, Repr

/-- Dynamic `snap.get (key)` access on a summary dictionary, as used by the
bulk-deletion filter matching; an unknown key yields `None`. -/
def SnapshotSummary.get (s : SnapshotSummary) : String → PyVal
  | "snapshot_id" => s.snapshot_id
  | "trigger_name" => .str s.trigger_name
  | "source_pod" => .str s.source_pod
  | "uid" => s.uid
  | "creationTimestamp" => .str s.creationTimestamp
  | "status" => .str s.status
  | "policy_name" => s.policy_name
  | _ => .null

/-- The summary dictionary built by `list_snapshots` for one object. -/
def summarize (item : KObj) : SnapshotSummary :=
  { snapshot_id := .ofOpt item.metadataD.name,
    trigger_name := lookupD item.metadataD.labelsD "gke-pod-snapshot-triggered-by" "Unknown",
    source_pod := lookupD item.metadataD.labelsD "podsnapshot.gke.io/pod-name" "Unknown",
    uid := .ofOpt item.metadataD.uid,
    creationTimestamp := item.metadataD.creationTimestamp.getD "",
    status := if isReadyObj item then "Ready" else "NotReady",
    policy_name := .ofOpt item.specD.policyName }

/-- The per-item keep test of the `list_snapshots` loop: skip on a truthy
`policy_name` that does not match, then skip on `ready_only` without a true
Ready condition. -/
def keepsItem (policy_name : PyVal) (ready_only : Bool) (item : KObj) : Bool :=
  !(policy_name.truthy && (PyVal.ofOpt item.specD.policyName != policy_name)) &&
  !(ready_only && !isReadyObj item)

/-- The comparison under `sort (key, reverse)`: creation timestamp descending;
Python list sort is stable, which `List.mergeSort` models. -/
def tsDescLE (a b : SnapshotSummary) : Bool :=
  decide (b.creationTimestamp ≤ a.creationTimestamp)

/-- Embedding of `list_snapshots`: list the snapshot objects, filter, summarize, and sort by
creation timestamp descending; `None` both on an `ApiException` and on an empty
filtered result. -/
def list_snapshots (gw : Gateway) (st : SessionState) (policy_name : PyVal)
    (ready_only : Bool) : Option (List SnapshotSummary) × List RemoteCall :=
  match gw.listObjects st.ns PODSNAPSHOT_PLURAL with
  | .error _ => (none, [.list st.ns PODSNAPSHOT_PLURAL])
  | .ok items =>
    let valid_snapshots := (items.filter (keepsItem policy_name ready_only)).map summarize
    if valid_snapshots.isEmpty then (none, [.list st.ns PODSNAPSHOT_PLURAL])
    else (some (valid_snapshots.mergeSort tsDescLE), [.list st.ns PODSNAPSHOT_PLURAL])

/-- The bulk-deletion match test of `delete_snapshots`: every filter key other
than `policy_name` must match the summary dictionary exactly. -/
def matchesFilters (filters : List (String × PyVal)) (snap : SnapshotSummary) : Bool :=
  filters.all fun kv => kv.1 == "policy_name" || snap.get kv.1 == kv.2

/-- One bulk-deletion step of `delete_snapshots`: on a match, issue the delete
and count it when it succeeds (a failing delete, 404 included, is not counted
and does not abort the loop). -/
def deleteStep (gw : Gateway) (st : SessionState) (filters : List (String × PyVal))
    (acc : Nat × List RemoteCall) (snap : SnapshotSummary) : Nat × List RemoteCall :=
  if matchesFilters filters snap then
    match gw.deleteObject st.ns PODSNAPSHOT_PLURAL snap.snapshot_id with
    | .ok _ => (acc.1 + 1, acc.2 ++ [.delete st.ns PODSNAPSHOT_PLURAL snap.snapshot_id])
    | .error _ => (acc.1, acc.2 ++ [.delete st.ns PODSNAPSHOT_PLURAL snap.snapshot_id])
  else acc

/-- Embedding of `delete_snapshots`: empty filters are a usage error; a `snapshot_id` filter
deletes exactly that object (any `ApiException`, 404 included, yields 0);
otherwise `policy_name` is mandatory, and the bulk path deletes every candidate
matching all remaining filters. -/
def delete_snapshots (gw : Gateway) (st : SessionState)
    (filters : List (String × PyVal)) : Nat × List RemoteCall :=
  if filters.isEmpty then (0, [])
  else
    match filters.lookup "snapshot_id" with
    | some uid =>
      (match gw.deleteObject st.ns PODSNAPSHOT_PLURAL uid with
       | .ok _ => (1, [.delete st.ns PODSNAPSHOT_PLURAL uid])
       | .error _ => (0, [.delete st.ns PODSNAPSHOT_PLURAL uid]))
    | none =>
      match filters.lookup "policy_name" with
      | none => (0, [])
      | some pv =>
        match list_snapshots gw st pv false with
        | (none, calls) => (0, calls)
        | (some candidates, calls) =>
          if candidates.isEmpty then (0, calls)
          else candidates.foldl (deleteStep gw st filters) (0, calls)

/-- One iteration of the session close hook: delete the trigger object,
swallowing every `ApiException` and logging a warning only when its status is
not 404; the accumulator carries the remote-call trace and the warnings. -/
def cleanupStep (gw : Gateway) (st : SessionState)
    (acc : List RemoteCall × List String) (trigger_name : String) :
    List RemoteCall × List String :=
  let call := RemoteCall.delete st.ns PODSNAPSHOTMANUALTRIGGER_PLURAL (.str trigger_name)
  match gw.deleteObject st.ns PODSNAPSHOTMANUALTRIGGER_PLURAL (.str trigger_name) with
  | .ok _ => (acc.1 ++ [call], acc.2)
  | .error e =>
    if e.status != 404 then
      (acc.1 ++ [call], acc.2 ++ ["Failed to cleanup trigger " ++ trigger_name])
    else (acc.1 ++ [call], acc.2)

/-- Whether the cleanup iteration for one trigger logs a warning: only when the
delete fails with a status other than 404. -/
def cleanupWarn (gw : Gateway) (st : SessionState) (trigger_name : String) : Bool :=
  match gw.deleteObject st.ns PODSNAPSHOTMANUALTRIGGER_PLURAL (.str trigger_name) with
  | .ok _ => false
  | .error e => e.status != 404

/-- The session close hook continued: iterate `cleanupStep` over the tracked
trigger names in creation order, then run the external base-class exit. -/
def exitSession (gw : Gateway) (st : SessionState) : List RemoteCall × List String :=
  let perTrigger := st.created_snapshots.foldl (cleanupStep gw st)
    (([], []) : List RemoteCall × List String)
  (perTrigger.1 ++ [.superExit], perTrigger.2)

/-- Embedding of `_get_snapshot_uid`: read the trigger object and return
`status.snapshotCreated.name` through defaulted dictionary access (absent
fields yield `None`); only an `ApiException` from the get is re-raised. -/
def _get_snapshot_uid (gw : Gateway) (st : SessionState) (trigger_name : String) :
    Except PyErr PyVal × List RemoteCall :=
  match gw.getObject st.ns PODSNAPSHOTMANUALTRIGGER_PLURAL (.str trigger_name) with
  | .error e =>
    (.error (.api e), [.get st.ns PODSNAPSHOTMANUALTRIGGER_PLURAL (.str trigger_name)])
  | .ok o =>
    (.ok (.ofOpt o.statusD.snapshotCreatedD.name),
     [.get st.ns PODSNAPSHOTMANUALTRIGGER_PLURAL (.str trigger_name)])

/-- Embedding of `_check_snapshot_ready`: get the snapshot object and raise `RuntimeError`
unless it carries a Ready/True condition; an `ApiException` is re-raised. -/
def _check_snapshot_ready (gw : Gateway) (st : SessionState) (snapshot_uid : PyVal) :
    Except PyErr Unit × List RemoteCall :=
  match gw.getObject st.ns PODSNAPSHOT_PLURAL snapshot_uid with
  | .error e => (.error (.api e), [.get st.ns PODSNAPSHOT_PLURAL snapshot_uid])
  | .ok snapshot =>
    if isReadyObj snapshot then (.ok (), [.get st.ns PODSNAPSHOT_PLURAL snapshot_uid])
    else
      (.error (.runtime ("PodSnapshot " ++ snapshot_uid.show ++ " is not in Ready state.")),
       [.get st.ns PODSNAPSHOT_PLURAL snapshot_uid])

/-- Embedding of `_configure_snapshot_restore`: resolve the trigger name to a snapshot
identifier, check readiness, and record the identifier under the
`podsnapshot.gke.io/ps-name` key; every failure is re-raised. -/
def _configure_snapshot_restore (gw : Gateway) (st : SessionState)
    (trigger_name : String) : Except PyErr (List (String × PyVal)) × List RemoteCall :=
  match _get_snapshot_uid gw st trigger_name with
  | (.error e, c1) => (.error e, c1)
  | (.ok uid, c1) =>
    match _check_snapshot_ready gw st uid with
    | (.error e, c2) => (.error e, c1 ++ c2)
    | (.ok _, c2) =>
      (.ok (("podsnapshot.gke.io/ps-name", uid) :: st.annotations.getD []), c1 ++ c2)

/-- The constructor arguments of `PodSnapshotSandboxClient` that the embedded
claims depend on. -/
structure InitArgs where
  ns : String
  podsnapshot_timeout : Nat
  trigger_name : Option String
deriving DecidableEq, Repr

/-- The fresh session fields set at the top of the constructor, before the
readiness probe runs. -/
def initState0 (args : InitArgs) : SessionState :=
  { controller_ready := false, created_snapshots := [], pod_name := .null,
    ns := args.ns, podsnapshot_timeout := args.podsnapshot_timeout,
    annotations := none }

/-- The session constructor: initialize the state, run the readiness probe,
run the restore binding when a trigger name is given (propagating its failure
before any provisioning), then provision the workload through the external
base-class constructor. -/
def initSession (gw : Gateway) (args : InitArgs) :
    Except PyErr SessionState × List RemoteCall :=
  let probed := snapshot_controller_ready gw (initState0 args)
  let st1 := probed.2.1
  match args.trigger_name with
  | some t =>
    (match _configure_snapshot_restore gw st1 t with
     | (.error e, c2) => (.error e, probed.2.2 ++ c2)
     | (.ok ann, c2) =>
       match gw.superInit with
       | .error e => (.error e, probed.2.2 ++ c2 ++ [.provision])
       | .ok pod =>
         (.ok { st1 with annotations := some ann, pod_name := pod },
          probed.2.2 ++ c2 ++ [.provision]))
  | none =>
    match gw.superInit with
    | .error e => (.error e, probed.2.2 ++ [.provision])
    | .ok pod => (.ok { st1 with pod_name := pod }, probed.2.2 ++ [.provision])

/-- A concrete session state used by witnesses and counterexamples: ready
controller, one tracked trigger, resolved pod name. -/
def stFix : SessionState :=
  { controller_ready := true, created_snapshots := ["t1"], pod_name := .str "pod-1",
    ns := "default", podsnapshot_timeout := 180, annotations := none }

/-- State `stFix` with the controller not ready. -/
def stNotReady : SessionState := { stFix with controller_ready := false }

/-- A trigger object whose status names the created snapshot `snap1`. -/
def trigObjFix : KObj := ⟨none, none, some ⟨none, some ⟨some "snap1"⟩⟩⟩

/-- A snapshot object named `snap1` carrying a Ready/True condition. -/
def readySnapFix : KObj :=
  ⟨some ⟨some "snap1", some "default", some "u-snap1", some "2024-01-01T00:00:00Z", none⟩,
   none, some ⟨some [⟨some "Ready", some "True", none⟩], none⟩⟩

/-- A gateway on which every operation succeeds: `t1` resolves to the ready
snapshot `snap1`, the component pods are Running, and the watch stream is
empty (so a wait runs to its deadline). -/
def gwOk : Gateway :=
  { createObject := fun _ _ _ => .ok (),
    getObject := fun _ _ name =>
      if name == .str "t1" then .ok trigObjFix
      else if name == .str "snap1" then .ok readySnapFix
      else .error ⟨404, "not found"⟩,
    listObjects := fun _ _ => .ok [],
    deleteObject := fun _ _ _ => .ok (),
    listPods := fun _ =>
      .ok [⟨"gke-pod-snapshot-controller-abc", "Running"⟩,
           ⟨"gke-pod-snapshot-agent-xyz", "Running"⟩],
    watchStream := fun _ _ _ _ => [],
    superInit := .ok (.str "pod-1") }

/-- Gateway `gwOk` with every delete failing as not-found (status 404). -/
def gw404 : Gateway := { gwOk with deleteObject := fun _ _ _ => .error ⟨404, "not found"⟩ }

/-- Gateway `gwOk` with every get returning an object that has no `status` field. -/
def gwNoStatus : Gateway := { gwOk with getObject := fun _ _ _ => .ok ⟨none, none, none⟩ }

/-- A gateway on which every operation fails with a 500-level `ApiException`. -/
def gwApiFail : Gateway :=
  { createObject := fun _ _ _ => .error ⟨500, "server error"⟩,
    getObject := fun _ _ _ => .error ⟨500, "server error"⟩,
    listObjects := fun _ _ => .error ⟨500, "server error"⟩,
    deleteObject := fun _ _ _ => .error ⟨500, "server error"⟩,
    listPods := fun _ => .error ⟨500, "server error"⟩,
    watchStream := fun _ _ _ _ => [],
    superInit := .error (.api ⟨500, "server error"⟩) }

/-- The five-snapshot fixture of the spec example: three `daily` snapshots (two
Ready, one NotReady) and two with other policies. -/
def fixtureItems : List KObj :=
  [ ⟨some ⟨some "s1", none, some "u1", some "2024-01-01T00:00:00Z", none⟩,
      some ⟨some "daily", none⟩, some ⟨some [⟨some "Ready", some "True", none⟩], none⟩⟩,
    ⟨some ⟨some "s2", none, some "u2", some "2024-03-01T00:00:00Z", none⟩,
      some ⟨some "daily", none⟩, some ⟨some [⟨some "Ready", some "False", none⟩], none⟩⟩,
    ⟨some ⟨some "s3", none, some "u3", some "2024-02-01T00:00:00Z", none⟩,
      some ⟨some "daily", none⟩, some ⟨some [⟨some "Ready", some "True", none⟩], none⟩⟩,
    ⟨some ⟨some "s4", none, some "u4", some "2024-04-01T00:00:00Z", none⟩,
      some ⟨some "weekly", none⟩, some ⟨some [⟨some "Ready", some "True", none⟩], none⟩⟩,
    ⟨some ⟨some "s5", none, some "u5", some "2024-05-01T00:00:00Z", none⟩,
      some ⟨some "other", none⟩, none⟩ ]

/-- Gateway `gwOk` listing the five-snapshot fixture. -/
def gwFixtures : Gateway := { gwOk with listObjects := fun _ _ => .ok fixtureItems }

/-- Spec-side formulation of the `list_snapshots` filter, written from the
spec words: keep a snapshot iff, when a policy name is given, its
`spec.policyName` matches it, and, when only ready snapshots are requested, it
carries a true Ready condition. -/
def specKeep (policy_name : PyVal) (ready_only : Bool) (item : KObj) : Bool :=
  (!policy_name.truthy || (PyVal.ofOpt item.specD.policyName == policy_name)) &&
  (!ready_only || isReadyObj item)

/-- The state a constructed session probes and configures under: fresh fields
with the controller-readiness outcome applied. -/
def initProbeState (gw : Gateway) (args : InitArgs) : SessionState :=
  (snapshot_controller_ready gw (initState0 args)).2.1

/-- Unfolding of the cleanup fold: the remote-call trace is one trigger delete
per tracked name in order, and the warnings are exactly those of the
iterations whose delete failed with a status other than 404. -/
theorem cleanup_foldl_eq (gw : Gateway) (st : SessionState) (l : List String) :
    ∀ acc : List RemoteCall × List String,
      l.foldl (cleanupStep gw st) acc =
        (acc.1 ++ l.map (fun n =>
           RemoteCall.delete st.ns PODSNAPSHOTMANUALTRIGGER_PLURAL (.str n)),
         acc.2 ++ (l.filter (cleanupWarn gw st)).map
           (fun n => "Failed to cleanup trigger " ++ n)) := by
  induction l with
  | nil => intro acc; simp
  | cons n l ih =>
    intro acc
    rw [List.foldl_cons, ih]
    cases hd : gw.deleteObject st.ns PODSNAPSHOTMANUALTRIGGER_PLURAL (.str n) with
    | ok u => simp [cleanupStep, cleanupWarn, hd, List.filter_cons]
    | error e =>
      by_cases h4 : e.status = 404
      · simp [cleanupStep, cleanupWarn, hd, List.filter_cons, h4]
      · simp [cleanupStep, cleanupWarn, hd, List.filter_cons, h4]

/-- C1 (amended): on session close, for every tracked trigger name in creation
order, the cleanup deletes the SnapshotTrigger object itself — it neither
resolves nor deletes any snapshot object — ignoring not-found errors (a
warning is logged only for a non-404 failure), and no individual failure
aborts the remaining iterations or escapes the cleanup call. -/
theorem cleanup_deletes_triggers_best_effort (gw : Gateway) (st : SessionState) :
    (exitSession gw st).1 =
      st.created_snapshots.map (fun n =>
        RemoteCall.delete st.ns PODSNAPSHOTMANUALTRIGGER_PLURAL (.str n)) ++
      [RemoteCall.superExit] ∧
    (exitSession gw st).2 =
      (st.created_snapshots.filter (cleanupWarn gw st)).map
        (fun n => "Failed to cleanup trigger " ++ n) := by
  unfold exitSession
  rw [cleanup_foldl_eq]
  simp

/-- C1 counterexample: with tracked trigger `t1` whose snapshot `snap1` is
resolvable and ready on the gateway, the cleanup trace is exactly one delete
of the trigger object followed by the base-class exit: no get (snapshot
resolution) call occurs and no snapshot object is deleted, contrary to the
claimed resolve-and-delete step. -/
theorem cleanup_no_snapshot_deletion_cex :
    (_get_snapshot_uid gwOk stFix "t1").1 = .ok (.str "snap1") ∧
    (exitSession gwOk stFix).1 =
      [RemoteCall.delete "default" PODSNAPSHOTMANUALTRIGGER_PLURAL (.str "t1"),
       RemoteCall.superExit] ∧
    ((exitSession gwOk stFix).1.all fun c =>
      match c with
      | RemoteCall.get _ _ _ => false
      | _ => true) = true :=
  ⟨rfl, rfl, rfl⟩

/-- C2 (amended): when the filters include a snapshot identifier,
`deleteSnapshots` issues exactly one remote delete, of exactly that object,
and returns 1 when the delete succeeds and 0 on any remote failure — a
not-found (404) failure included. -/
theorem delete_by_id_spec (gw : Gateway) (st : SessionState)
    (filters : List (String × PyVal)) (v : PyVal)
    (h : filters.lookup "snapshot_id" = some v) :
    (delete_snapshots gw st filters).2 =
      [RemoteCall.delete st.ns PODSNAPSHOT_PLURAL v] ∧
    (∀ u, gw.deleteObject st.ns PODSNAPSHOT_PLURAL v = .ok u →
      (delete_snapshots gw st filters).1 = 1) ∧
    (∀ e, gw.deleteObject st.ns PODSNAPSHOT_PLURAL v = .error e →
      (delete_snapshots gw st filters).1 = 0) := by
  have hne : filters.isEmpty = false := by
    cases filters with
    | nil => simp at h
    | cons a l => rfl
  unfold delete_snapshots
  rw [hne, h]
  cases hd : gw.deleteObject st.ns PODSNAPSHOT_PLURAL v <;> simp [hd]

/-- Witness for the amended C2 statement at a succeeding delete. -/
theorem delete_by_id_spec_witness :
    ([(("snapshot_id" : String), PyVal.str "s1")].lookup "snapshot_id" =
      some (PyVal.str "s1")) ∧
    ((delete_snapshots gwOk stFix [("snapshot_id", PyVal.str "s1")]).2 =
      [RemoteCall.delete "default" PODSNAPSHOT_PLURAL (PyVal.str "s1")] ∧
     (∀ u, gwOk.deleteObject "default" PODSNAPSHOT_PLURAL (PyVal.str "s1") = .ok u →
       (delete_snapshots gwOk stFix [("snapshot_id", PyVal.str "s1")]).1 = 1) ∧
     (∀ e, gwOk.deleteObject "default" PODSNAPSHOT_PLURAL (PyVal.str "s1") = .error e →
       (delete_snapshots gwOk stFix [("snapshot_id", PyVal.str "s1")]).1 = 0)) :=
  ⟨rfl, delete_by_id_spec gwOk stFix [("snapshot_id", PyVal.str "s1")] (PyVal.str "s1") rfl⟩

/-- C2 counterexample: deleting by identifier when the object is already
absent (the remote delete fails with status 404) returns 0, not 1 as the
claim states. -/
theorem delete_by_id_absent_returns_zero_cex :
    gw404.deleteObject "default" PODSNAPSHOT_PLURAL (.str "s1") =
      .error ⟨404, "not found"⟩ ∧
    (delete_snapshots gw404 stFix [("snapshot_id", PyVal.str "s1")]).1 = 0 :=
  ⟨rfl, rfl⟩

/-- C3 (amended): resolving a trigger name reads the SnapshotTrigger status
field through defaulted dictionary access: when the status field is absent the
resolution returns the missing identifier `None` instead of raising; it raises
only when the remote get itself fails. -/
theorem get_snapshot_uid_spec (gw : Gateway) (st : SessionState) (n : String) :
    (∀ o, gw.getObject st.ns PODSNAPSHOTMANUALTRIGGER_PLURAL (.str n) = .ok o →
      o.status = none → (_get_snapshot_uid gw st n).1 = .ok .null) ∧
    (∀ e, gw.getObject st.ns PODSNAPSHOTMANUALTRIGGER_PLURAL (.str n) = .error e →
      (_get_snapshot_uid gw st n).1 = .error (.api e)) := by
  constructor
  · intro o ho hs
    simp [_get_snapshot_uid, ho, KObj.statusD, hs, KStatus.snapshotCreatedD, PyVal.ofOpt]
  · intro e he
    simp [_get_snapshot_uid, he]

/-- Witness for the amended C3 statement at an object without a status field. -/
theorem get_snapshot_uid_spec_witness :
    (gwNoStatus.getObject "default" PODSNAPSHOTMANUALTRIGGER_PLURAL (.str "t1") =
      .ok ⟨none, none, none⟩) ∧
    (_get_snapshot_uid gwNoStatus stFix "t1").1 = .ok .null :=
  ⟨rfl, (get_snapshot_uid_spec gwNoStatus stFix "t1").1 ⟨none, none, none⟩ rfl rfl⟩

/-- C3 counterexample: a trigger object whose status field is absent makes the
resolution return the missing identifier `None` — no exception is raised. -/
theorem get_snapshot_uid_missing_status_cex :
    (gwNoStatus.getObject "default" PODSNAPSHOTMANUALTRIGGER_PLURAL (.str "t1") =
      .ok ⟨none, none, none⟩) ∧
    (⟨none, none, none⟩ : KObj).status = none ∧
    (_get_snapshot_uid gwNoStatus stFix "t1").1 = .ok .null :=
  ⟨rfl, rfl, rfl⟩

/-- C5: the readiness probe is monotonic within a session: the cached flag
after a probe equals the value the probe returned (so a true answer is
recorded), and once the flag is true the probe returns true with no remote
query and an unchanged session state — the flag never returns to false. -/
theorem probe_monotonic_spec (gw : Gateway) (st : SessionState) :
    ((snapshot_controller_ready gw st).2.1.controller_ready =
      (snapshot_controller_ready gw st).1) ∧
    (st.controller_ready = true →
      snapshot_controller_ready gw st = (true, st, [])) := by
  cases hc : st.controller_ready with
  | true =>
    constructor
    · simp [snapshot_controller_ready, hc]
    · intro _; simp [snapshot_controller_ready, hc]
  | false =>
    constructor
    · unfold snapshot_controller_ready
      rw [hc]
      simp only [Bool.false_eq_true, if_false]
      split
      · rfl
      · split <;> rfl
    · intro h; simp [hc] at h

/-- Witness for C5 at a session whose flag is already true. -/
theorem probe_monotonic_spec_witness :
    stFix.controller_ready = true ∧
    snapshot_controller_ready gwOk stFix = (true, stFix, []) :=
  ⟨rfl, (probe_monotonic_spec gwOk stFix).2 rfl⟩

/-- C7: with the controller not ready, or without a resolved source pod name,
`checkpoint` returns exit code 1 with a non-empty (descriptive) stderr,
performs no remote call — in particular `createObject` is never invoked — and
leaves the session state unchanged. -/
theorem checkpoint_preconditions_spec (gw : Gateway) (st : SessionState) (n : String)
    (h : st.controller_ready = false ∨ st.pod_name.truthy = false) :
    (checkpoint gw st n).1.exit_code = 1 ∧
    (checkpoint gw st n).1.stderr ≠ "" ∧
    (checkpoint gw st n).2.2 = [] ∧
    (checkpoint gw st n).2.1 = st := by
  rcases h with h | h
  · simp [checkpoint, h]
  · by_cases hc : st.controller_ready
    · simp [checkpoint, hc, h]
    · simp [checkpoint, hc]

/-- Witness for C7 at a session whose controller is not ready. -/
theorem checkpoint_preconditions_spec_witness :
    (stNotReady.controller_ready = false ∨ stNotReady.pod_name.truthy = false) ∧
    ((checkpoint gwOk stNotReady "t9").1.exit_code = 1 ∧
     (checkpoint gwOk stNotReady "t9").1.stderr ≠ "" ∧
     (checkpoint gwOk stNotReady "t9").2.2 = [] ∧
     (checkpoint gwOk stNotReady "t9").2.1 = stNotReady) :=
  ⟨Or.inl rfl, checkpoint_preconditions_spec gwOk stNotReady "t9" (Or.inl rfl)⟩

/-- C9: a filter map containing neither a snapshot identifier nor a policy
name (the empty map included) makes `deleteSnapshots` return 0 with no remote
call at all. -/
theorem delete_snapshots_requires_filters_spec (gw : Gateway) (st : SessionState)
    (filters : List (String × PyVal))
    (h1 : filters.lookup "snapshot_id" = none)
    (h2 : filters.lookup "policy_name" = none) :
    delete_snapshots gw st filters = (0, []) := by
  unfold delete_snapshots
  by_cases he : filters.isEmpty <;> simp [he, h1, h2]

/-- Witness for C9 at a filter map with an unrelated key, and at the empty
filter map through the same theorem. -/
theorem delete_snapshots_requires_filters_spec_witness :
    (([(("trigger_name" : String), PyVal.str "x")].lookup "snapshot_id" = none) ∧
     ([(("trigger_name" : String), PyVal.str "x")].lookup "policy_name" = none)) ∧
    delete_snapshots gwOk stFix [("trigger_name", PyVal.str "x")] = (0, []) ∧
    delete_snapshots gwOk stFix [] = (0, []) :=
  ⟨⟨rfl, rfl⟩,
   delete_snapshots_requires_filters_spec gwOk stFix [("trigger_name", PyVal.str "x")] rfl rfl,
   delete_snapshots_requires_filters_spec gwOk stFix [] rfl rfl⟩

/-- C10: when the remote list call fails with an API error, `listSnapshots`
returns null instead of raising; a successful query over an empty collection
also returns null, so the failure is indistinguishable at the interface from
an empty result. -/
theorem list_snapshots_error_null_spec (gw : Gateway) (st : SessionState)
    (policy_name : PyVal) (ready_only : Bool) :
    (∀ e, gw.listObjects st.ns PODSNAPSHOT_PLURAL = .error e →
      (list_snapshots gw st policy_name ready_only).1 = none) ∧
    (gw.listObjects st.ns PODSNAPSHOT_PLURAL = .ok [] →
      (list_snapshots gw st policy_name ready_only).1 = none) := by
  constructor
  · intro e he; simp [list_snapshots, he]
  · intro h; simp [list_snapshots, h]

/-- Witness for C10 at a failing gateway and at an empty successful listing. -/
theorem list_snapshots_error_null_spec_witness :
    gwApiFail.listObjects "default" PODSNAPSHOT_PLURAL = .error ⟨500, "server error"⟩ ∧
    (list_snapshots gwApiFail stFix (.str "daily") true).1 = none ∧
    gwOk.listObjects "default" PODSNAPSHOT_PLURAL = .ok [] ∧
    (list_snapshots gwOk stFix (.str "daily") true).1 = none :=
  ⟨rfl,
   (list_snapshots_error_null_spec gwApiFail stFix (.str "daily") true).1 ⟨500, "server error"⟩ rfl,
   rfl,
   (list_snapshots_error_null_spec gwOk stFix (.str "daily") true).2 rfl⟩

/-- C4: after a `checkpoint (name)` call on a name not already tracked, the
name is a member of the tracked-trigger list iff the preconditions passed and
the remote trigger creation succeeded; when creation succeeds but the watch
stream ends with no matching condition within the timeout, the call returns
exit code 1 with a timeout message and the name is still appended. -/
theorem checkpoint_tracking_spec (gw : Gateway) (st : SessionState) (n : String)
    (hfresh : n ∉ st.created_snapshots) :
    (n ∈ (checkpoint gw st n).2.1.created_snapshots ↔
      (st.controller_ready = true ∧ st.pod_name.truthy = true ∧
       gw.createObject st.ns PODSNAPSHOTMANUALTRIGGER_PLURAL (trigger_manifest st n) =
         .ok ())) ∧
    (st.controller_ready = true → st.pod_name.truthy = true →
     gw.createObject st.ns PODSNAPSHOTMANUALTRIGGER_PLURAL (trigger_manifest st n) =
       .ok () →
     (gw.watchStream st.ns PODSNAPSHOTMANUALTRIGGER_PLURAL n st.podsnapshot_timeout).any
       eventMatches = false →
     (checkpoint gw st n).1.exit_code = 1 ∧
     (checkpoint gw st n).1.stderr =
       "Snapshot creation timed out: " ++
       ("Snapshot manual trigger " ++ n ++ " was not processed within " ++
        toString st.podsnapshot_timeout ++ " seconds.") ∧
     (checkpoint gw st n).2.1.created_snapshots = st.created_snapshots ++ [n]) := by
  cases hc : st.controller_ready with
  | false =>
    constructor
    · simp [checkpoint, hc, hfresh]
    · intro h; exact absurd h (by decide)
  | true =>
    cases hp : st.pod_name.truthy with
    | false =>
      constructor
      · simp [checkpoint, hc, hp, hfresh]
      · intro _ h; exact absurd h (by decide)
    | true =>
      cases hcr : gw.createObject st.ns PODSNAPSHOTMANUALTRIGGER_PLURAL
          (trigger_manifest st n) with
      | error e =>
        constructor
        · simp [checkpoint, hc, hp, hcr, hfresh]
        · intro _ _ h; exact Except.noConfusion h
      | ok u =>
        cases u
        constructor
        · simp only [checkpoint, hc, hp, hcr]
          simp only [Bool.not_true, Bool.false_eq_true, if_false]
          unfold _wait_for_snapshot_processed
          split <;> simp
        · intro _ _ _ h4
          simp only [checkpoint, hc, hp, hcr]
          simp only [Bool.not_true, Bool.false_eq_true, if_false]
          unfold _wait_for_snapshot_processed
          simp [h4]

/-- Witness for C4: on a gateway where creation succeeds and the watch stream
is empty, the fresh name is appended and the call times out with exit code 1. -/
theorem checkpoint_tracking_spec_witness :
    ("t9" ∉ stFix.created_snapshots) ∧
    ("t9" ∈ (checkpoint gwOk stFix "t9").2.1.created_snapshots) ∧
    (checkpoint gwOk stFix "t9").1.exit_code = 1 ∧
    (checkpoint gwOk stFix "t9").2.1.created_snapshots =
      stFix.created_snapshots ++ ["t9"] :=
  ⟨by decide,
   (checkpoint_tracking_spec gwOk stFix "t9" (by decide)).1.mpr ⟨rfl, rfl, rfl⟩,
   ((checkpoint_tracking_spec gwOk stFix "t9" (by decide)).2 rfl rfl rfl rfl).1,
   ((checkpoint_tracking_spec gwOk stFix "t9" (by decide)).2 rfl rfl rfl rfl).2.2⟩

/-- The namespace check issues exactly one pod-listing call. -/
theorem check_namespace_calls (gw : Gateway) (ns : String) (comps : List String) :
    (check_namespace gw ns comps).2 = [RemoteCall.listPods ns] := by
  unfold check_namespace
  split <;> rfl

/-- The readiness probe never issues a provisioning call. -/
theorem provision_not_in_probe_calls (gw : Gateway) (st : SessionState) :
    RemoteCall.provision ∉ (snapshot_controller_ready gw st).2.2 := by
  unfold snapshot_controller_ready
  by_cases h0 : st.controller_ready = true
  · simp [h0]
  · by_cases h1 : (check_namespace gw SNAPSHOT_NAMESPACE_SELF_INSTALLED
        [SNAPSHOT_CONTROLLER_NAME, SNAPSHOT_AGENT]).1 = true
    · simp [h0, h1, check_namespace_calls]
    · by_cases h2 : (check_namespace gw SNAPSHOT_NAMESPACE_MANAGED [SNAPSHOT_AGENT]).1 = true
      · simp [h0, h1, h2, check_namespace_calls]
      · simp [h0, h1, h2, check_namespace_calls]

/-- The trigger resolution issues exactly one get of the trigger object. -/
theorem get_snapshot_uid_calls (gw : Gateway) (st : SessionState) (t : String) :
    (_get_snapshot_uid gw st t).2 =
      [RemoteCall.get st.ns PODSNAPSHOTMANUALTRIGGER_PLURAL (.str t)] := by
  unfold _get_snapshot_uid
  split <;> rfl

/-- The readiness verification issues exactly one get of the snapshot object. -/
theorem check_snapshot_ready_calls (gw : Gateway) (st : SessionState) (uid : PyVal) :
    (_check_snapshot_ready gw st uid).2 = [RemoteCall.get st.ns PODSNAPSHOT_PLURAL uid] := by
  unfold _check_snapshot_ready
  split
  · rfl
  · split <;> rfl

/-- The restore binding step never issues a provisioning call. -/
theorem configure_calls_no_provision (gw : Gateway) (st : SessionState) (t : String) :
    RemoteCall.provision ∉ (_configure_snapshot_restore gw st t).2 := by
  have h1 := get_snapshot_uid_calls gw st t
  unfold _configure_snapshot_restore
  cases hg : _get_snapshot_uid gw st t with
  | mk r c1 =>
    rw [hg] at h1
    simp only at h1
    subst h1
    cases r with
    | error e => simp
    | ok uid =>
      simp only []
      have h2 := check_snapshot_ready_calls gw st uid
      cases hcv : _check_snapshot_ready gw st uid with
      | mk r2 c2 =>
        rw [hcv] at h2
        simp only at h2
        subst h2
        cases r2 <;> simp

/-- C8: when a session is constructed bound to a prior snapshot (a trigger
name is given), the binding step verifies that the resolved snapshot carries a
Ready/True condition — raising a descriptive `RuntimeError` when the fetched
snapshot lacks it — and any failure of the binding step propagates out of the
constructor as a raised error with the workload never provisioned, while a
successfully constructed session always carries the verified identifier as its
binding annotation. -/
theorem restore_binding_spec (gw : Gateway) (args : InitArgs) (t : String)
    (ht : args.trigger_name = some t) :
    (∀ st uid o, gw.getObject st.ns PODSNAPSHOT_PLURAL uid = .ok o →
       isReadyObj o = false →
       (_check_snapshot_ready gw st uid).1 =
         .error (.runtime ("PodSnapshot " ++ uid.show ++ " is not in Ready state."))) ∧
    (∀ e, (_configure_snapshot_restore gw (initProbeState gw args) t).1 = .error e →
       (initSession gw args).1 = .error e ∧
       RemoteCall.provision ∉ (initSession gw args).2) ∧
    (∀ s, (initSession gw args).1 = .ok s →
       ∃ uid o, (_get_snapshot_uid gw (initProbeState gw args) t).1 = .ok uid ∧
         gw.getObject (initProbeState gw args).ns PODSNAPSHOT_PLURAL uid = .ok o ∧
         isReadyObj o = true ∧
         (s.annotations.getD []).lookup "podsnapshot.gke.io/ps-name" = some uid) := by
  refine ⟨?part1, ?part2, ?part3⟩
  case part1 =>
    intro st uid o hg hr
    simp [_check_snapshot_ready, hg, hr]
  case part2 =>
    intro e he
    unfold initProbeState at he
    unfold initSession
    rw [ht]
    simp only []
    cases hcfg : _configure_snapshot_restore gw
        (snapshot_controller_ready gw (initState0 args)).2.1 t with
    | mk r c =>
      rw [hcfg] at he
      simp only at he
      subst he
      constructor
      · rfl
      · intro hmem
        simp only [List.mem_append] at hmem
        rcases hmem with hmem | hmem
        · exact provision_not_in_probe_calls gw (initState0 args) hmem
        · have hcp := configure_calls_no_provision gw
            (snapshot_controller_ready gw (initState0 args)).2.1 t
          rw [hcfg] at hcp
          simp only at hcp
          exact hcp hmem
  case part3 =>
    intro s hs
    unfold initProbeState
    unfold initSession at hs
    rw [ht] at hs
    simp only [] at hs
    cases hcfg : _configure_snapshot_restore gw
        (snapshot_controller_ready gw (initState0 args)).2.1 t with
    | mk r c =>
      rw [hcfg] at hs
      cases r with
      | error e => simp at hs
      | ok ann =>
        cases hsi : gw.superInit with
        | error e => rw [hsi] at hs; simp at hs
        | ok pod =>
          rw [hsi] at hs
          simp only at hs
          injection hs with hseq
          have hann : s.annotations = some ann := by
            rw [← hseq]
          unfold _configure_snapshot_restore at hcfg
          cases hg : _get_snapshot_uid gw
              (snapshot_controller_ready gw (initState0 args)).2.1 t with
          | mk rg cg =>
            rw [hg] at hcfg
            cases rg with
            | error e => simp at hcfg
            | ok uid =>
              simp only at hcfg
              cases hcv : _check_snapshot_ready gw
                  (snapshot_controller_ready gw (initState0 args)).2.1 uid with
              | mk rv cv =>
                rw [hcv] at hcfg
                cases rv with
                | error e => simp at hcfg
                | ok u =>
                  simp only [Prod.mk.injEq, Except.ok.injEq] at hcfg
                  unfold _check_snapshot_ready at hcv
                  cases hgo : gw.getObject
                      (snapshot_controller_ready gw (initState0 args)).2.1.ns
                      PODSNAPSHOT_PLURAL uid with
                  | error e => rw [hgo] at hcv; simp at hcv
                  | ok o =>
                    rw [hgo] at hcv
                    refine ⟨uid, o, ?_, hgo, ?_, ?_⟩
                    · rfl
                    · by_contra hnr
                      simp only at hcv
                      rw [if_neg hnr] at hcv
                      simp at hcv
                    · rw [hann, ← hcfg.1]
                      simp only [Option.getD_some, List.lookup]
                      rfl

/-- Witness for C8: the readiness verification rejects an object without a
Ready condition, and a session bound to trigger `t1` on the all-good gateway
constructs successfully with the resolved, verified identifier recorded as the
binding annotation. -/
theorem restore_binding_spec_witness :
    ((⟨"default", 180, some "t1"⟩ : InitArgs).trigger_name = some "t1") ∧
    ((_check_snapshot_ready gwNoStatus stFix (.str "s1")).1 =
      .error (.runtime ("PodSnapshot " ++ (PyVal.str "s1").show ++
        " is not in Ready state."))) ∧
    ((initSession gwOk ⟨"default", 180, some "t1"⟩).1 =
      .ok { controller_ready := true, created_snapshots := [], pod_name := .str "pod-1",
            ns := "default", podsnapshot_timeout := 180,
            annotations := some [("podsnapshot.gke.io/ps-name", PyVal.str "snap1")] }) ∧
    (∃ uid o,
      (_get_snapshot_uid gwOk (initProbeState gwOk ⟨"default", 180, some "t1"⟩) "t1").1 =
        .ok uid ∧
      gwOk.getObject (initProbeState gwOk ⟨"default", 180, some "t1"⟩).ns
        PODSNAPSHOT_PLURAL uid = .ok o ∧
      isReadyObj o = true ∧
      (({ controller_ready := true, created_snapshots := [], pod_name := .str "pod-1",
          ns := "default", podsnapshot_timeout := 180,
          annotations := some [("podsnapshot.gke.io/ps-name", PyVal.str "snap1")] } :
            SessionState).annotations.getD []).lookup "podsnapshot.gke.io/ps-name" =
        some uid) :=
  ⟨rfl,
   (restore_binding_spec gwNoStatus ⟨"default", 180, some "t1"⟩ "t1" rfl).1 stFix
     (.str "s1") ⟨none, none, none⟩ rfl rfl,
   by rfl,
   (restore_binding_spec gwOk ⟨"default", 180, some "t1"⟩ "t1" rfl).2.2 _ (by rfl)⟩

/-- The implemented per-item filter agrees with its spec-side formulation. -/
theorem keepsItem_eq_specKeep (policy_name : PyVal) (ready_only : Bool) (it : KObj) :
    keepsItem policy_name ready_only it = specKeep policy_name ready_only it := by
  simp [keepsItem, specKeep, bne, Bool.not_and, Bool.not_not]

/-- The descending timestamp comparison is transitive. -/
theorem tsDescLE_trans (a b c : SnapshotSummary) :
    tsDescLE a b → tsDescLE b c → tsDescLE a c := by
  intro hab hbc
  simp only [tsDescLE, decide_eq_true_eq] at hab hbc ⊢
  exact le_trans hbc hab

/-- The descending timestamp comparison is total. -/
theorem tsDescLE_total (a b : SnapshotSummary) : tsDescLE a b || tsDescLE b a := by
  simp only [tsDescLE]
  rcases le_total a.creationTimestamp b.creationTimestamp with h | h
  · simp [h]
  · simp [h]

/-- Stability of the descending sort: the elements at any fixed timestamp keep
their original relative order. -/
theorem mergeSort_filter_ts (valid : List SnapshotSummary) (ts : String) :
    (valid.mergeSort tsDescLE).filter (fun s => s.creationTimestamp == ts) =
      valid.filter (fun s => s.creationTimestamp == ts) := by
  have hperm : List.Perm
      ((valid.mergeSort tsDescLE).filter (fun s => s.creationTimestamp == ts))
      (valid.filter (fun s => s.creationTimestamp == ts)) :=
    (List.mergeSort_perm valid tsDescLE).filter _
  have hpw : (valid.filter (fun s => s.creationTimestamp == ts)).Pairwise
      (fun a b => tsDescLE a b) := by
    apply List.pairwise_of_forall_mem_list
    intro a ha b hb
    have ha2 := (List.mem_filter.mp ha).2
    have hb2 := (List.mem_filter.mp hb).2
    simp only [beq_iff_eq] at ha2 hb2
    simp [tsDescLE, ha2, hb2]
  have hsub : List.Sublist (valid.filter (fun s => s.creationTimestamp == ts))
      (valid.mergeSort tsDescLE) :=
    List.sublist_mergeSort tsDescLE_trans tsDescLE_total hpw (List.filter_sublist valid)
  have hsub2 : List.Sublist (valid.filter (fun s => s.creationTimestamp == ts))
      ((valid.mergeSort tsDescLE).filter (fun s => s.creationTimestamp == ts)) := by
    have hff := hsub.filter (fun s => s.creationTimestamp == ts)
    rwa [List.filter_filter, (by funext a; simp : (fun a : SnapshotSummary =>
      (a.creationTimestamp == ts) && (a.creationTimestamp == ts)) =
      (fun a => a.creationTimestamp == ts))] at hff
  exact (hsub2.eq_of_length (hperm.length_eq.symm)).symm

/-- C6: over a successfully listed collection, `listSnapshots` returns exactly
the snapshot summaries passing the policy filter (when a policy name is given)
and the readiness filter (when only ready snapshots are requested), sorted by
creation timestamp descending with ties kept in original enumeration order,
and returns null — not an empty sequence — when the filtered result is empty. -/
theorem list_snapshots_spec (gw : Gateway) (st : SessionState) (policy_name : PyVal)
    (ready_only : Bool) (items : List KObj)
    (h : gw.listObjects st.ns PODSNAPSHOT_PLURAL = .ok items) :
    ((list_snapshots gw st policy_name ready_only).1 = none ↔
      items.filter (specKeep policy_name ready_only) = []) ∧
    (∀ l, (list_snapshots gw st policy_name ready_only).1 = some l →
      l.Pairwise (fun a b => b.creationTimestamp ≤ a.creationTimestamp) ∧
      (∀ s, s ∈ l ↔ s ∈ (items.filter (specKeep policy_name ready_only)).map summarize) ∧
      (∀ ts : String,
        l.filter (fun s => s.creationTimestamp == ts) =
          ((items.filter (specKeep policy_name ready_only)).map summarize).filter
            (fun s => s.creationTimestamp == ts))) := by
  have hkeq : items.filter (keepsItem policy_name ready_only) =
      items.filter (specKeep policy_name ready_only) :=
    List.filter_congr fun it _ => keepsItem_eq_specKeep policy_name ready_only it
  unfold list_snapshots
  rw [h]
  simp only []
  by_cases hemp :
      ((items.filter (keepsItem policy_name ready_only)).map summarize).isEmpty
  · rw [if_pos hemp]
    rw [List.isEmpty_iff, List.map_eq_nil_iff, hkeq] at hemp
    constructor
    · simp [hemp]
    · intro l hl; exact absurd hl (by simp)
  · rw [if_neg hemp]
    have hnemp : ¬ items.filter (specKeep policy_name ready_only) = [] := by
      intro hF
      rw [List.isEmpty_iff, List.map_eq_nil_iff, hkeq] at hemp
      exact hemp hF
    constructor
    · constructor
      · intro hnone; exact absurd hnone (by simp)
      · intro hF; exact absurd hF hnemp
    · intro l hl
      rw [Option.some.injEq] at hl
      subst hl
      refine ⟨?sorted, ?mem, ?stable⟩
      case sorted =>
        have hpw := List.sorted_mergeSort tsDescLE_trans tsDescLE_total
          ((items.filter (keepsItem policy_name ready_only)).map summarize)
        exact hpw.imp fun hab => by
          simpa [tsDescLE, decide_eq_true_eq] using hab
      case mem =>
        intro s
        rw [List.mem_mergeSort, hkeq]
      case stable =>
        intro ts
        rw [mergeSort_filter_ts, hkeq]

/-- Witness for C6 at the five-snapshot fixture of the spec example. -/
theorem list_snapshots_spec_witness :
    gwFixtures.listObjects "default" PODSNAPSHOT_PLURAL = .ok fixtureItems ∧
    (((list_snapshots gwFixtures stFix (.str "daily") true).1 = none ↔
       fixtureItems.filter (specKeep (.str "daily") true) = []) ∧
     (∀ l, (list_snapshots gwFixtures stFix (.str "daily") true).1 = some l →
       l.Pairwise (fun a b => b.creationTimestamp ≤ a.creationTimestamp) ∧
       (∀ s, s ∈ l ↔
         s ∈ (fixtureItems.filter (specKeep (.str "daily") true)).map summarize) ∧
       (∀ ts : String,
         l.filter (fun s => s.creationTimestamp == ts) =
           ((fixtureItems.filter (specKeep (.str "daily") true)).map summarize).filter
             (fun s => s.creationTimestamp == ts)))) :=
  ⟨rfl, list_snapshots_spec gwFixtures stFix (.str "daily") true fixtureItems rfl⟩

end PodSnapshot
